import Mathlib

/-!
Verification development for the distance-function miniapp
(`miniapps/shiftedBC/distfunction.cpp`).

The file shallow-embeds the orchestration logic of `DistanceFunction`:
the constructor (mesh-scale estimation and essential-dof setup),
`GetPrecondtioner`, and `ComputeDistance`.  Scalar values are modelled by
`ℚ`; a grid function is a `List ℚ` of nodal values (a single global
partition; the MPI all-reduce over partitions degenerates to a reduction
over the one list).  External library collaborators — coefficient
projection, the Hypre smoother used by `DiffuseField`, and the two
assemble-and-CG-solve pipelines — are passed in as function parameters,
since the spec places field representation, assembly and linear solvers
out of scope.  Fatal errors (`MFEM_ABORT`, `mfem_error`) are modelled by
`Except.error` carrying the diagnostic string.
-/

/-- The reference-cell geometry tags of `mfem::Geometry::Type` that can be
returned by `GetElementBaseGeometry`. -/
inductive Geometry where
  | point
  | segment
  | triangle
  | square
  | tetrahedron
  | cube
  | prism
  | pyramid
deriving DecidableEq, Repr

/-- The mesh data consumed by the `DistanceFunction` constructor:
element volumes (all partitions together, so that the `MPI_SUM`
all-reduce is their total sum), the global element count `GetGlobalNE`,
the common base geometry `GetElementBaseGeometry(0)`, the
`bdr_attributes` array of the mesh, and the true-dof list that
`GetEssentialTrueDofs` resolves for the all-ones boundary marker
(an external finite-element-space query). -/
structure MeshData where
  elemVolumes : List ℚ
  globalNE : ℕ
  baseGeometry : Geometry
  bdrAttributes : List ℕ
  essTrueDofs : List ℕ

/-- The state of a `DistanceFunction` object: the cached mesh scale `dx`,
the diffusion coefficient `t_param`, the `use_amgx` flag, the member
array `ess_tdof_list`, and the three member grid functions. -/
structure DistanceFunction where
  dx : ℚ
  t_param : ℚ
  use_amgx : Bool
  ess_tdof_list : List ℕ
  distance : List ℚ
  source : List ℚ
  diffused_source : List ℚ
deriving DecidableEq, Repr

/-- The `switch (pmesh.GetElementBaseGeometry(0))` of the constructor:
`dx` before division by the order, as a function of the globally summed
area and the global zone count.  `sqrtFn`/`cbrtFn` stand for the C
library `sqrt` and `pow(·, 1.0/3.0)`; `none` is the `MFEM_ABORT`
default branch. -/
def geomDx (sqrtFn cbrtFn : ℚ → ℚ) :
    Geometry → ℚ → ℚ → Option ℚ
  | .segment, a, n => some (a / n)
  | .square, a, n => some (sqrtFn (a / n))
  | .triangle, a, n => some (sqrtFn (2 * a / n))
  | .cube, a, n => some (cbrtFn (a / n))
  | .tetrahedron, a, n => some (cbrtFn (6 * a / n))
  | _, _, _ => none

/-- The geometries accepted by the constructor switch. -/
def supportedGeometry : Geometry → Bool
  | .segment => true
  | .square => true
  | .triangle => true
  | .cube => true
  | .tetrahedron => true
  | _ => false

/-- The constructor `DistanceFunction::DistanceFunction(pmesh, order,
diff_coeff, use_amgx_)`.  It sums the element volumes (`MPI_Allreduce`
with `MPI_SUM`), dispatches on the base geometry to compute `dx`
(aborting on an unknown zone type), divides `dx` by the order, and
fills `ess_tdof_list` from the all-ones boundary marker when the mesh
has boundary attributes.  `initVals` stands for the unspecified contents
of the three freshly allocated grid functions. -/
def constructDistanceFunction (sqrtFn cbrtFn : ℚ → ℚ) (mesh : MeshData)
    (order : ℕ) (diff_coeff : ℚ) (use_amgx : Bool) (initVals : List ℚ) :
    Except String DistanceFunction :=
  let glob_area := mesh.elemVolumes.sum
  let glob_zones : ℚ := (mesh.globalNE : ℚ)
  match geomDx sqrtFn cbrtFn mesh.baseGeometry glob_area glob_zones with
  | none => Except.error "Unknown zone type!"
  | some d =>
    let dx := d / (order : ℚ)
    let ess := if mesh.bdrAttributes.length ≠ 0 then mesh.essTrueDofs else []
    Except.ok
      { dx := dx
        t_param := diff_coeff
        use_amgx := use_amgx
        ess_tdof_list := ess
        distance := initVals
        source := initVals
        diffused_source := initVals }

/-- The available preconditioner kinds: `AmgXSolver` and
`HypreBoomerAMG`. -/
inductive PrecKind where
  | amgx
  | boomerAMG
deriving DecidableEq, Repr

/-- `GetPrecondtioner(use_amgx)`.  `mfemUseAmgx` models the
`MFEM_USE_AMGX` build flag; when it is off and `use_amgx` is requested,
`mfem_error("AMGX not enabled \n")` aborts. -/
def getPrecondtioner (mfemUseAmgx : Bool) (use_amgx : Bool) :
    Except String PrecKind :=
  if mfemUseAmgx then
    if use_amgx then Except.ok PrecKind.amgx else Except.ok PrecKind.boomerAMG
  else
    if use_amgx then Except.error "AMGX not enabled \n"
    else Except.ok PrecKind.boomerAMG

/-- The nodal peak transform of `ComputeDistance`:
`source(i) = ((x < 0.0) || (x > 1.0)) ? 0.0 : 4.0 * x * (1.0 - x)`. -/
def peakTransform (x : ℚ) : ℚ :=
  if x < 0 ∨ x > 1 then 0 else 4 * x * (1 - x)

/-- Stage 1 of `ComputeDistance`: project the level-set coefficient,
optionally smooth it (`if (smooth_steps > 0) DiffuseField(source,
smooth_steps)`), optionally apply the peak transform to every nodal
value.  `project` is the external `ProjectCoefficient` and `diffuse`
the external smoothing pipeline of `DiffuseField`. -/
def sourcePrep (project : (ℚ → ℚ) → List ℚ)
    (diffuse : List ℚ → ℤ → List ℚ) (level_set : ℚ → ℚ)
    (smooth_steps : ℤ) (transform : Bool) : List ℚ :=
  let s := project level_set
  let s := if smooth_steps > 0 then diffuse s smooth_steps else s
  if transform then s.map peakTransform else s

/-- `Vector::Min()` followed by the `MPI_MIN` all-reduce, over the single
global partition: the minimum entry of the list (the value on an empty
field is irrelevant to the development and set to `0`). -/
def listMin : List ℚ → ℚ
  | [] => 0
  | a :: l => l.foldl min a

/-- `DistanceFunction::ComputeDistance(level_set, smooth_steps,
transform)`.

External collaborators:
* `solveScreened ess dt src` is the assemble-form-solve-recover pipeline
  for the screened diffusion operator `M + dt·L` with right-hand side
  assembled from `src`, constrained on the dof list `ess` (used twice:
  once with the member `ess_tdof_list`, once after
  `ess_tdof_list.DeleteAll()` has emptied it);
* `solvePoisson diffused` is the pipeline for `L · distance = rhs` with
  the right-hand side assembled from the normalized gradient of
  `diffused` and an empty constraint list.

Each of the three solves first constructs its preconditioner via
`GetPrecondtioner`, which can abort.  The final stage subtracts the
global minimum from the distance field.  The returned state reflects the
member mutations: `source`, `diffused_source`, `distance`, and the
emptied `ess_tdof_list`. -/
def computeDistance (mfemUseAmgx : Bool)
    (project : (ℚ → ℚ) → List ℚ)
    (diffuse : List ℚ → ℤ → List ℚ)
    (solveScreened : List ℕ → ℚ → List ℚ → List ℚ)
    (solvePoisson : List ℚ → List ℚ)
    (df : DistanceFunction) (level_set : ℚ → ℚ)
    (smooth_steps : ℤ) (transform : Bool) :
    Except String DistanceFunction :=
  let src := sourcePrep project diffuse level_set smooth_steps transform
  let dt := df.t_param * df.dx * df.dx
  match getPrecondtioner mfemUseAmgx df.use_amgx with
  | Except.error e => Except.error e
  | Except.ok _prec =>
    let u_dirichlet := solveScreened df.ess_tdof_list dt src
    let ess_cleared : List ℕ := []
    match getPrecondtioner mfemUseAmgx df.use_amgx with
    | Except.error e => Except.error e
    | Except.ok _prec2 =>
      let u_neumann := solveScreened ess_cleared dt src
      let diffused :=
        List.zipWith (fun un ud => (1 / 2 : ℚ) * (un + ud)) u_neumann u_dirichlet
      match getPrecondtioner mfemUseAmgx df.use_amgx with
      | Except.error e => Except.error e
      | Except.ok _prec3 =>
        let d_raw := solvePoisson diffused
        let d_min_glob := listMin d_raw
        let dist := d_raw.map (fun v => v - d_min_glob)
        Except.ok
          { df with
            source := src
            diffused_source := diffused
            distance := dist
            ess_tdof_list := ess_cleared }

/-! ### List-minimum lemmas for the normalization stage -/

theorem foldl_min_le_init (l : List ℚ) (a : ℚ) : l.foldl min a ≤ a := by
  induction l generalizing a with
  | nil => simp
  | cons x xs ih =>
    exact le_trans (ih (min a x)) (min_le_left a x)

theorem foldl_min_le_of_mem {x : ℚ} {l : List ℚ} (hx : x ∈ l) (a : ℚ) :
    l.foldl min a ≤ x := by
  induction l generalizing a with
  | nil => cases hx
  | cons y ys ih =>
    rcases List.mem_cons.mp hx with h | h
    · subst h
      exact le_trans (foldl_min_le_init ys (min a x)) (min_le_right a x)
    · exact ih h (min a y)

theorem foldl_min_mem (l : List ℚ) (a : ℚ) :
    l.foldl min a = a ∨ l.foldl min a ∈ l := by
  induction l generalizing a with
  | nil => exact Or.inl rfl
  | cons x xs ih =>
    show xs.foldl min (min a x) = a ∨ _
    rcases ih (min a x) with h | h
    · rcases min_choice a x with hc | hc
      · exact Or.inl (h.trans hc)
      · exact Or.inr (List.mem_cons.mpr (Or.inl (h.trans hc)))
    · exact Or.inr (List.mem_cons.mpr (Or.inr h))

theorem listMin_le {l : List ℚ} {x : ℚ} (hx : x ∈ l) : listMin l ≤ x := by
  cases l with
  | nil => cases hx
  | cons a t =>
    rcases List.mem_cons.mp hx with h | h
    · subst h
      exact foldl_min_le_init t x
    · exact foldl_min_le_of_mem h a

theorem listMin_mem {l : List ℚ} (h : l ≠ []) : listMin l ∈ l := by
  cases l with
  | nil => exact absurd rfl h
  | cons a t =>
    rcases foldl_min_mem t a with h1 | h1
    · exact List.mem_cons.mpr (Or.inl h1)
    · exact List.mem_cons.mpr (Or.inr h1)

theorem normalized_nonneg {l : List ℚ} {y : ℚ}
    (hy : y ∈ l.map (fun v => v - listMin l)) : 0 ≤ y := by
  rcases List.mem_map.mp hy with ⟨v, hv, rfl⟩
  have := listMin_le hv
  linarith

theorem normalized_min_zero {l : List ℚ} (h : l ≠ []) :
    listMin (l.map (fun v => v - listMin l)) = 0 := by
  have h0 : (0 : ℚ) ∈ l.map (fun v => v - listMin l) := by
    refine List.mem_map.mpr ⟨listMin l, listMin_mem h, by ring⟩
  have hne : l.map (fun v => v - listMin l) ≠ [] := by
    intro hc
    rw [hc] at h0
    cases h0
  exact le_antisymm (listMin_le h0) (normalized_nonneg (listMin_mem hne))

/-! ### Concrete instantiations of the external collaborators

Small closed inputs used to exercise `computeDistance` and the
constructor at concrete values.  `exSolveS` is a solver whose
constrained and unconstrained solutions differ, as they do for any
nontrivial mesh with boundary dofs. -/

/-- A concrete level-set coefficient. -/
def exLS : ℚ → ℚ := fun _ => 0

/-- A concrete projection collaborator: a two-dof space. -/
def exProj : (ℚ → ℚ) → List ℚ := fun _ => [0, 0]

/-- A concrete smoothing collaborator (identity smoother). -/
def exDiff : List ℚ → ℤ → List ℚ := fun s _ => s

/-- A concrete screened-diffusion solve: the unconstrained (Neumann)
solution differs from the solution constrained on dof `0`. -/
def exSolveS : List ℕ → ℚ → List ℚ → List ℚ :=
  fun ess _dt _src => if ess = [] then [0, 1] else [0, 0]

/-- A concrete Poisson solve (identity, to propagate the diffused field
into the distance field unchanged before normalization). -/
def exSolveP : List ℚ → List ℚ := fun d => d

/-- A `DistanceFunction` state as built by the constructor on a mesh with
boundary attributes: dof `0` is essential. -/
def exDF : DistanceFunction :=
  { dx := 1
    t_param := 1
    use_amgx := false
    ess_tdof_list := [0]
    distance := [0, 0]
    source := [0, 0]
    diffused_source := [0, 0] }

/-- The state after one `computeDistance` call on `exDF` with the
collaborators above: the Dirichlet solve gives `[0, 0]`, the Neumann
solve `[0, 1]`, their average `[0, 1/2]` propagates to the distance
field (already at minimum `0`), and `ess_tdof_list` has been emptied. -/
def exRes : DistanceFunction :=
  { dx := 1
    t_param := 1
    use_amgx := false
    ess_tdof_list := []
    distance := [0, 1 / 2]
    source := [0, 0]
    diffused_source := [0, 1 / 2] }

/-- Claim C1: the essential-dof set computed at construction is *not*
fixed for the object's lifetime: `ComputeDistance` executes
`ess_tdof_list.DeleteAll()` on the member (distfunction.cpp:166), so a
call on an object whose set is `[0]` returns with the member set
emptied. -/
theorem c1_ess_tdof_list_cleared :
    exDF.ess_tdof_list = [0] ∧
      (computeDistance false exProj exDiff exSolveS exSolveP exDF exLS 0
            false).map DistanceFunction.ess_tdof_list =
        Except.ok ([] : List ℕ) := by
  constructor
  · rfl
  · rfl

/-- Claim C2: `ComputeDistance` is not re-entrant: on the same object the
first call returns `exRes` but empties the member `ess_tdof_list`, so
the second call's Dirichlet solve runs unconstrained and the two calls
produce different distance fields. -/
theorem c2_not_reentrant :
    computeDistance false exProj exDiff exSolveS exSolveP exDF exLS 0 false =
        Except.ok exRes ∧
      (computeDistance false exProj exDiff exSolveS exSolveP exRes exLS 0
            false).map DistanceFunction.distance ≠
        Except.ok exRes.distance := by
  constructor
  · simp [computeDistance, sourcePrep, exProj, exDiff, exSolveS, exSolveP,
      exDF, exLS, exRes, getPrecondtioner, listMin, min_def]
  · norm_num [computeDistance, sourcePrep, exProj, exDiff, exSolveS,
      exSolveP, exDF, exLS, exRes, getPrecondtioner, listMin, min_def,
      Except.map]

/-! ### Configuration errors (construction vs. solve time) -/

/-- The constructor copies the `use_amgx_` argument into the object
unchanged; it never consults the `MFEM_USE_AMGX` build flag. -/
theorem construct_ok_use_amgx {sq cb : ℚ → ℚ} {mesh : MeshData}
    {order : ℕ} {dc : ℚ} {amg : Bool} {iv : List ℚ} {df : DistanceFunction}
    (h : constructDistanceFunction sq cb mesh order dc amg iv = Except.ok df) :
    df.use_amgx = amg := by
  cases hg : mesh.baseGeometry <;>
    simp_all [constructDistanceFunction, geomDx] <;> rw [← h]

/-- An unsupported base geometry aborts the constructor with the
`MFEM_ABORT` diagnostic. -/
theorem geom_unsupported_error {sq cb : ℚ → ℚ} {mesh : MeshData}
    {order : ℕ} {dc : ℚ} {amg : Bool} {iv : List ℚ}
    (h : supportedGeometry mesh.baseGeometry = false) :
    constructDistanceFunction sq cb mesh order dc amg iv =
      Except.error "Unknown zone type!" := by
  cases hg : mesh.baseGeometry <;>
    simp_all [constructDistanceFunction, geomDx, supportedGeometry]

/-- A one-element square mesh with boundary attributes. -/
def exMeshSquare : MeshData :=
  { elemVolumes := [1]
    globalNE := 1
    baseGeometry := Geometry.square
    bdrAttributes := [1]
    essTrueDofs := [0] }

/-- A one-element prism mesh: a geometry the constructor rejects. -/
def exMeshPrism : MeshData :=
  { elemVolumes := [1]
    globalNE := 1
    baseGeometry := Geometry.prism
    bdrAttributes := [1]
    essTrueDofs := [0] }

/-- The object the constructor builds from `exMeshSquare` with
`use_amgx = true` (square geometry: `dx = sqrt(1/1)/1 = 1`). -/
def c3df : DistanceFunction :=
  { dx := 1
    t_param := 1
    use_amgx := true
    ess_tdof_list := [0]
    distance := [0, 0]
    source := [0, 0]
    diffused_source := [0, 0] }

/-- Claim C3 is refuted as stated: with `use_amgx = true` in a build
without `MFEM_USE_AMGX`, construction on a supported geometry succeeds —
the GPU-preconditioner configuration error is *not* detected at
construction time; it only aborts later, inside `ComputeDistance`, when
`GetPrecondtioner` runs for the first solve. -/
theorem c3_config_error_counterexample :
    constructDistanceFunction id id exMeshSquare 1 1 true [0, 0] =
        Except.ok c3df ∧
      computeDistance false exProj exDiff exSolveS exSolveP c3df exLS 0
          false =
        Except.error "AMGX not enabled \n" := by
  constructor
  · norm_num [constructDistanceFunction, geomDx, exMeshSquare, c3df]
  · simp [computeDistance, getPrecondtioner, c3df]

/-- Claim C3 (amended): an unsupported cell geometry is a fatal abort
with a diagnostic detected eagerly at construction time; requesting the
AMGX preconditioner in a build without AMGX support is likewise a fatal
abort with a diagnostic, but it is detected during `ComputeDistance`,
when the first solve's preconditioner is constructed (before the CG
iteration), not at construction time. -/
theorem c3_config_errors_amended :
    ∀ (sq cb : ℚ → ℚ) (mesh : MeshData) (order : ℕ) (dc : ℚ) (amg : Bool)
      (iv : List ℚ),
      (supportedGeometry mesh.baseGeometry = false →
        constructDistanceFunction sq cb mesh order dc amg iv =
          Except.error "Unknown zone type!") ∧
      (∀ (df : DistanceFunction) (proj : (ℚ → ℚ) → List ℚ)
          (diffuse : List ℚ → ℤ → List ℚ)
          (sS : List ℕ → ℚ → List ℚ → List ℚ) (sP : List ℚ → List ℚ)
          (ls : ℚ → ℚ) (steps : ℤ) (tr : Bool),
        constructDistanceFunction sq cb mesh order dc amg iv =
          Except.ok df →
        amg = true →
        computeDistance false proj diffuse sS sP df ls steps tr =
          Except.error "AMGX not enabled \n") := by
  intro sq cb mesh order dc amg iv
  refine ⟨fun h => geom_unsupported_error h, ?_⟩
  intro df proj diffuse sS sP ls steps tr hok hamg
  have huse : df.use_amgx = true := hamg ▸ construct_ok_use_amgx hok
  simp [computeDistance, getPrecondtioner, huse]

/-- Witness for the amended claim C3, at the concrete prism and square
meshes. -/
theorem c3_config_errors_witness :
    constructDistanceFunction id id exMeshPrism 1 1 true [] =
        Except.error "Unknown zone type!" ∧
      computeDistance false exProj exDiff exSolveS exSolveP c3df exLS 0
          false =
        Except.error "AMGX not enabled \n" := by
  constructor
  · exact (c3_config_errors_amended id id exMeshPrism 1 1 true []).1 rfl
  · exact (c3_config_errors_amended id id exMeshSquare 1 1 true [0, 0]).2
      c3df exProj exDiff exSolveS exSolveP exLS 0 false
      (by norm_num [constructDistanceFunction, geomDx, exMeshSquare, c3df])
      rfl

/-! ### Inversion of a successful `computeDistance` call -/

/-- A successful `computeDistance` call determines the returned state:
the prepared source, the averaged dual-BC diffusion result, the
min-shifted Poisson solution, and the emptied `ess_tdof_list`. -/
theorem computeDistance_ok_inv {m : Bool} {proj : (ℚ → ℚ) → List ℚ}
    {diffuse : List ℚ → ℤ → List ℚ} {sS : List ℕ → ℚ → List ℚ → List ℚ}
    {sP : List ℚ → List ℚ} {df : DistanceFunction} {ls : ℚ → ℚ}
    {steps : ℤ} {tr : Bool} {df' : DistanceFunction}
    (h : computeDistance m proj diffuse sS sP df ls steps tr = Except.ok df') :
    df' =
      { df with
        source := sourcePrep proj diffuse ls steps tr
        diffused_source :=
          List.zipWith (fun un ud => (1 / 2 : ℚ) * (un + ud))
            (sS [] (df.t_param * df.dx * df.dx)
              (sourcePrep proj diffuse ls steps tr))
            (sS df.ess_tdof_list (df.t_param * df.dx * df.dx)
              (sourcePrep proj diffuse ls steps tr))
        distance :=
          (sP (List.zipWith (fun un ud => (1 / 2 : ℚ) * (un + ud))
            (sS [] (df.t_param * df.dx * df.dx)
              (sourcePrep proj diffuse ls steps tr))
            (sS df.ess_tdof_list (df.t_param * df.dx * df.dx)
              (sourcePrep proj diffuse ls steps tr)))).map
            (fun v =>
              v - listMin (sP (List.zipWith
                (fun un ud => (1 / 2 : ℚ) * (un + ud))
                (sS [] (df.t_param * df.dx * df.dx)
                  (sourcePrep proj diffuse ls steps tr))
                (sS df.ess_tdof_list (df.t_param * df.dx * df.dx)
                  (sourcePrep proj diffuse ls steps tr)))))
        ess_tdof_list := [] } := by
  rcases hg : getPrecondtioner m df.use_amgx with e | p <;>
    simp [computeDistance, hg] at h
  simp only [one_div]
  exact h.symm

/-- The concrete run of `computeDistance` on `exDF` without smoothing or
transform ends in `exRes`. -/
theorem exRun_ok :
    computeDistance false exProj exDiff exSolveS exSolveP exDF exLS 0
      false = Except.ok exRes := by
  simp [computeDistance, sourcePrep, exProj, exDiff, exSolveS, exSolveP,
    exDF, exLS, exRes, getPrecondtioner, listMin, min_def]

/-- The same concrete run with the peak transform enabled also ends in
`exRes` (the projected source is identically `0` and
`peakTransform 0 = 0`). -/
theorem exRunT_ok :
    computeDistance false exProj exDiff exSolveS exSolveP exDF exLS 0
      true = Except.ok exRes := by
  simp [computeDistance, sourcePrep, peakTransform, exProj, exDiff,
    exSolveS, exSolveP, exDF, exLS, exRes, getPrecondtioner, listMin,
    min_def]

/-- Claim C4: after a successful `ComputeDistance`, the global minimum of
the returned (nonempty) distance field is exactly `0` and no value is
negative; the field is obtained by one global-minimum reduction on the
Poisson solution followed by subtracting that minimum from every
value. -/
theorem c4_normalization :
    ∀ (m : Bool) (proj : (ℚ → ℚ) → List ℚ) (diffuse : List ℚ → ℤ → List ℚ)
      (sS : List ℕ → ℚ → List ℚ → List ℚ) (sP : List ℚ → List ℚ)
      (df : DistanceFunction) (ls : ℚ → ℚ) (steps : ℤ) (tr : Bool)
      (df' : DistanceFunction),
      computeDistance m proj diffuse sS sP df ls steps tr = Except.ok df' →
      df'.distance ≠ [] →
      listMin df'.distance = 0 ∧ (∀ y ∈ df'.distance, 0 ≤ y) ∧
        df'.distance = (sP df'.diffused_source).map
          (fun v => v - listMin (sP df'.diffused_source)) := by
  intro m proj diffuse sS sP df ls steps tr df' h hne
  have hinv := computeDistance_ok_inv h
  subst hinv
  refine ⟨?_, fun y hy => normalized_nonneg hy, rfl⟩
  apply normalized_min_zero
  intro hc
  apply hne
  simp only [one_div] at hc
  simp [hc]

/-- Witness for claim C4 at the concrete run `exRun_ok` (the value
`1/2` is the second entry of the returned field). -/
theorem c4_normalization_witness :
    listMin exRes.distance = 0 ∧ (0 : ℚ) ≤ 1 / 2 ∧
      exRes.distance = (exSolveP exRes.diffused_source).map
        (fun v => v - listMin (exSolveP exRes.diffused_source)) := by
  have h := c4_normalization false exProj exDiff exSolveS exSolveP exDF
    exLS 0 false exRes exRun_ok (by simp [exRes])
  exact ⟨h.1, h.2.1 (1 / 2) (by simp [exRes]), h.2.2⟩

/-- Claim C5: the constructor computes `dx` from the globally summed
measure `M = Σ elemVolumes` and the global cell count `N` as `M/N`
(segments), `sqrt(M/N)` (quads), `sqrt(2M/N)` (triangles), `(M/N)^(1/3)`
(hexes), `(6M/N)^(1/3)` (tets), each divided by the approximation
order; every other topology is the fatal `MFEM_ABORT`. -/
theorem c5_mesh_scale :
    ∀ (sq cb : ℚ → ℚ) (mesh : MeshData) (order : ℕ) (dc : ℚ) (amg : Bool)
      (iv : List ℚ),
      (constructDistanceFunction sq cb mesh order dc amg iv).map
          DistanceFunction.dx =
        match mesh.baseGeometry with
        | Geometry.segment =>
            Except.ok
              (mesh.elemVolumes.sum / (mesh.globalNE : ℚ) / (order : ℚ))
        | Geometry.square =>
            Except.ok
              (sq (mesh.elemVolumes.sum / (mesh.globalNE : ℚ)) / (order : ℚ))
        | Geometry.triangle =>
            Except.ok
              (sq (2 * mesh.elemVolumes.sum / (mesh.globalNE : ℚ)) /
                (order : ℚ))
        | Geometry.cube =>
            Except.ok
              (cb (mesh.elemVolumes.sum / (mesh.globalNE : ℚ)) / (order : ℚ))
        | Geometry.tetrahedron =>
            Except.ok
              (cb (6 * mesh.elemVolumes.sum / (mesh.globalNE : ℚ)) /
                (order : ℚ))
        | _ => Except.error "Unknown zone type!" := by
  intro sq cb mesh order dc amg iv
  cases hg : mesh.baseGeometry <;>
    simp [constructDistanceFunction, geomDx, hg, Except.map]

/-- Claim C6: when the transform flag is set, every nodal value of the
(possibly smoothed) source field is remapped by `peakTransform`, which
sends `x` to `0` when `x < 0` or `x > 1` and to `4x(1-x)` otherwise;
out-of-range values yield exactly `0` with no error. -/
theorem c6_peak_transform_applied :
    ∀ (m : Bool) (proj : (ℚ → ℚ) → List ℚ) (diffuse : List ℚ → ℤ → List ℚ)
      (sS : List ℕ → ℚ → List ℚ → List ℚ) (sP : List ℚ → List ℚ)
      (df : DistanceFunction) (ls : ℚ → ℚ) (steps : ℤ)
      (df' : DistanceFunction),
      computeDistance m proj diffuse sS sP df ls steps true =
        Except.ok df' →
      df'.source =
          (if steps > 0 then diffuse (proj ls) steps else proj ls).map
            peakTransform ∧
        ∀ x : ℚ, x < 0 ∨ 1 < x → peakTransform x = 0 := by
  intro m proj diffuse sS sP df ls steps df' h
  have hinv := computeDistance_ok_inv h
  subst hinv
  constructor
  · simp [sourcePrep]
  · intro x hx
    unfold peakTransform
    rw [if_pos hx]

/-- Witness for claim C6 at the concrete run `exRunT_ok` and at the
out-of-range value `2`. -/
theorem c6_peak_transform_witness :
    exRes.source = (exProj exLS).map peakTransform ∧ peakTransform 2 = 0 := by
  constructor
  · have h := (c6_peak_transform_applied false exProj exDiff exSolveS
      exSolveP exDF exLS 0 exRes exRunT_ok).1
    simpa using h
  · exact (c6_peak_transform_applied false exProj exDiff exSolveS exSolveP
      exDF exLS 0 exRes exRunT_ok).2 2 (Or.inr (by norm_num))

/-- Claim C7: the peak transform maps every rational into `[0, 1]`
(`4x(1-x) ∈ [0,1]` on `[0,1]`, and `0` outside), so applying it to its
own output is well-defined and stays in `[0, 1]`. -/
theorem c7_peak_transform_range :
    ∀ x : ℚ,
      (0 ≤ peakTransform x ∧ peakTransform x ≤ 1) ∧
        ((x < 0 ∨ 1 < x) → peakTransform x = 0) ∧
        (0 ≤ peakTransform (peakTransform x) ∧
          peakTransform (peakTransform x) ≤ 1) := by
  have key : ∀ y : ℚ, 0 ≤ peakTransform y ∧ peakTransform y ≤ 1 := by
    intro y
    by_cases h : y < 0 ∨ y > 1
    · unfold peakTransform
      rw [if_pos h]
      norm_num
    · have h' := h
      push_neg at h'
      unfold peakTransform
      rw [if_neg h]
      constructor
      · nlinarith [h'.1, h'.2]
      · nlinarith [sq_nonneg (2 * y - 1)]
  intro x
  exact ⟨key x, fun hx => by unfold peakTransform; rw [if_pos hx], key _⟩

/-- Witness for claim C7 at the out-of-range value `2`. -/
theorem c7_peak_transform_witness :
    peakTransform 2 = 0 ∧ 0 ≤ peakTransform 2 ∧ peakTransform 2 ≤ 1 := by
  refine ⟨(c7_peak_transform_range 2).2.1 (Or.inr (by norm_num)),
    (c7_peak_transform_range 2).1.1, (c7_peak_transform_range 2).1.2⟩

/-- Claim C8: the diffused field stored by a successful call equals the
point-wise average `0.5 · (u_Dirichlet + u_Neumann)` of the two
boundary-condition diffusion solutions (the solve constrained on the
object's essential dof list and the unconstrained solve), recomputed
externally from the same prepared source. -/
theorem c8_dual_bc_average :
    ∀ (m : Bool) (proj : (ℚ → ℚ) → List ℚ) (diffuse : List ℚ → ℤ → List ℚ)
      (sS : List ℕ → ℚ → List ℚ → List ℚ) (sP : List ℚ → List ℚ)
      (df : DistanceFunction) (ls : ℚ → ℚ) (steps : ℤ) (tr : Bool)
      (df' : DistanceFunction),
      computeDistance m proj diffuse sS sP df ls steps tr = Except.ok df' →
      df'.diffused_source =
        List.zipWith (fun uD uN => (1 / 2 : ℚ) * (uD + uN))
          (sS df.ess_tdof_list (df.t_param * df.dx * df.dx)
            (sourcePrep proj diffuse ls steps tr))
          (sS [] (df.t_param * df.dx * df.dx)
            (sourcePrep proj diffuse ls steps tr)) := by
  intro m proj diffuse sS sP df ls steps tr df' h
  have hinv := computeDistance_ok_inv h
  subst hinv
  show List.zipWith _ _ _ = _
  rw [List.zipWith_comm_of_comm _ (fun a b => by ring)]

/-- Witness for claim C8 at the concrete run `exRun_ok`. -/
theorem c8_dual_bc_average_witness :
    exRes.diffused_source =
      List.zipWith (fun uD uN => (1 / 2 : ℚ) * (uD + uN))
        (exSolveS exDF.ess_tdof_list (exDF.t_param * exDF.dx * exDF.dx)
          (sourcePrep exProj exDiff exLS 0 false))
        (exSolveS [] (exDF.t_param * exDF.dx * exDF.dx)
          (sourcePrep exProj exDiff exLS 0 false)) :=
  c8_dual_bc_average false exProj exDiff exSolveS exSolveP exDF exLS 0
    false exRes exRun_ok

/-- Claim C9: with `smoothSteps = 0` the smoothing collaborator is never
consulted (the whole call is independent of it) and the source field
used is numerically identical to the unsmoothed projection of the level
set. -/
theorem c9_smooth_zero_noop :
    ∀ (m : Bool) (proj : (ℚ → ℚ) → List ℚ)
      (diffuse diffuse' : List ℚ → ℤ → List ℚ)
      (sS : List ℕ → ℚ → List ℚ → List ℚ) (sP : List ℚ → List ℚ)
      (df : DistanceFunction) (ls : ℚ → ℚ) (tr : Bool),
      computeDistance m proj diffuse sS sP df ls 0 tr =
          computeDistance m proj diffuse' sS sP df ls 0 tr ∧
        ∀ df' : DistanceFunction,
          computeDistance m proj diffuse sS sP df ls 0 false =
            Except.ok df' →
          df'.source = proj ls := by
  intro m proj diffuse diffuse' sS sP df ls tr
  constructor
  · simp [computeDistance, sourcePrep]
  · intro df' h
    have hinv := computeDistance_ok_inv h
    subst hinv
    simp [sourcePrep]

/-- Witness for claim C9 at the concrete run `exRun_ok`. -/
theorem c9_smooth_zero_noop_witness :
    exRes.source = exProj exLS :=
  (c9_smooth_zero_noop false exProj exDiff exDiff exSolveS exSolveP exDF
    exLS false).2 exRes exRun_ok

/-- Claim C10: a negative `smoothSteps` behaves exactly as
`smoothSteps = 0`: the test `smooth_steps > 0` fails, the smoothing step
is skipped, and no error is raised — the precondition
`smoothSteps ≥ 0` is never checked. -/
theorem c10_negative_smooth_steps :
    ∀ (m : Bool) (proj : (ℚ → ℚ) → List ℚ) (diffuse : List ℚ → ℤ → List ℚ)
      (sS : List ℕ → ℚ → List ℚ → List ℚ) (sP : List ℚ → List ℚ)
      (df : DistanceFunction) (ls : ℚ → ℚ) (tr : Bool) (steps : ℤ),
      steps < 0 →
      computeDistance m proj diffuse sS sP df ls steps tr =
        computeDistance m proj diffuse sS sP df ls 0 tr := by
  intro m proj diffuse sS sP df ls tr steps h
  have h1 : ¬steps > 0 := by omega
  simp [computeDistance, sourcePrep, h1]

/-- Witness for claim C10 at `smoothSteps = -1`. -/
theorem c10_negative_smooth_steps_witness :
    computeDistance false exProj exDiff exSolveS exSolveP exDF exLS (-1)
        false =
      computeDistance false exProj exDiff exSolveS exSolveP exDF exLS 0
        false :=
  c10_negative_smooth_steps false exProj exDiff exSolveS exSolveP exDF
    exLS false (-1) (by norm_num)
